import Mathlib

/-!
Shallow embedding of the StyleMe backend's proximity-search service
(`src/routes/salon_routes.py`) and proofs of the specification's claims
about it.

Floating-point arithmetic is modelled by exact real arithmetic (`ℝ`);
Python's `float('inf')` sentinel is modelled by `⊤ : EReal`.  Python
truthiness on a possibly-absent numeric value (`None` or `0.0` is falsy)
is modelled explicitly on `Option ℝ`.
-/

/-! ### Data model (persistence-layer records) -/

/-- A `Salon` record as stored by the persistence layer: identity,
optional geographic position in decimal degrees, location metadata and
the moderation flag. -/
structure Salon where
  id : Nat
  latitude : Option ℝ
  longitude : Option ℝ
  city : String
  country : String
  is_approved : Bool

/-- A `Barber` record: identity, display data and the owning salon. -/
structure Barber where
  id : Nat
  name : String
  specialty : String
  salon_id : Nat

/-- The `{id, name, specialty}` summary of a barber embedded in enriched
salon views. -/
structure BarberSummary where
  id : Nat
  name : String
  specialty : String

/-- A salon's serialized view together with its barber summaries. -/
structure SalonWithBarbers where
  salon : Salon
  barbers : List BarberSummary

/-- A salon's serialized view with the attached rounded `distance`
field, as built by the nearby-search loop. -/
structure AnnotatedSalon where
  salon : Salon
  distance : ℝ

/-! ### Distance function (`calculate_distance`, lines 8–25) -/

/-- `math.radians`: degrees to radians. -/
noncomputable def degToRad (x : ℝ) : ℝ := x * (Real.pi / 180)

/-- The Haversine intermediate
`a = sin²(dlat/2) + cos(lat1)·cos(lat2)·sin²(dlon/2)` computed on the
radian-converted inputs (line 19 of the source). -/
noncomputable def haversineA (lat1 lon1 lat2 lon2 : ℝ) : ℝ :=
  Real.sin ((degToRad lat2 - degToRad lat1) / 2) ^ 2 +
    Real.cos (degToRad lat1) * Real.cos (degToRad lat2) *
      Real.sin ((degToRad lon2 - degToRad lon1) / 2) ^ 2

/-- `c = 2 * asin(sqrt(a))`, then `c * 6371` (lines 20–25). -/
noncomputable def haversineKm (lat1 lon1 lat2 lon2 : ℝ) : ℝ :=
  2 * Real.arcsin (Real.sqrt (haversineA lat1 lon1 lat2 lon2)) * 6371

/-- `calculate_distance(lat1, lon1, lat2, lon2)`.  The source first runs
`if not all([lat1, lon1, lat2, lon2]): return float('inf')`: Python
truthiness, so an absent (`None`) coordinate *or* a coordinate equal to
`0` yields the infinite sentinel.  Otherwise it returns the Haversine
distance in kilometres. -/
noncomputable def calculate_distance :
    Option ℝ → Option ℝ → Option ℝ → Option ℝ → EReal
  | some lat1, some lon1, some lat2, some lon2 =>
      if lat1 = 0 ∨ lon1 = 0 ∨ lat2 = 0 ∨ lon2 = 0 then ⊤
      else ((haversineKm lat1 lon1 lat2 lon2 : ℝ) : EReal)
  | _, _, _, _ => ⊤

/-- The claim-side Haversine formula, written out step by step following
the specification's own wording ("Convert all four inputs from degrees
to radians.  Compute `dlat = lat2-lat1`, `dlon = lon2-lon1`.  Compute
`a = sin²(dlat/2) + cos(lat1)·cos(lat2)·sin²(dlon/2)`.  Compute
`c = 2·asin(sqrt(a))`.  Multiply by Earth's mean radius, 6371 km."),
to be compared with the source-derived `calculate_distance`. -/
noncomputable def haversineSpec (lat1 lon1 lat2 lon2 : ℝ) : ℝ :=
  let l1 := lat1 * (Real.pi / 180)
  let m1 := lon1 * (Real.pi / 180)
  let l2 := lat2 * (Real.pi / 180)
  let m2 := lon2 * (Real.pi / 180)
  let dlat := l2 - l1
  let dlon := m2 - m1
  let a := Real.sin (dlat / 2) ^ 2 +
    Real.cos l1 * Real.cos l2 * Real.sin (dlon / 2) ^ 2
  let c := 2 * Real.arcsin (Real.sqrt a)
  c * 6371

/-! ### Nearby search (`get_nearby_salons`, lines 27–60) -/

/-- `round(x, 2)`: rounding to two decimal places.  (Mathlib's `round`
rounds half-integers up whereas Python rounds them to even; no claim
depends on the tie-breaking direction.) -/
noncomputable def round2 (x : ℝ) : ℝ := (round (100 * x) : ℤ) / 100

/-- The body of the loop at lines 41–48: each approved salon passes
`if salon.latitude and salon.longitude:` (truthiness), its distance to
the user point is computed, and it is kept with an attached rounded
`distance` exactly when that distance is `<= radius`. -/
noncomputable def nearbyPre (user_lat user_lon radius : ℝ)
    (salons : List Salon) : List AnnotatedSalon :=
  (salons.filter fun s => s.is_approved).filterMap fun s =>
    match s.latitude, s.longitude with
    | some slat, some slon =>
        if slat = 0 ∨ slon = 0 then none
        else if calculate_distance (some user_lat) (some user_lon)
            (some slat) (some slon) ≤ (radius : EReal) then
          some ⟨s, round2 (calculate_distance (some user_lat) (some user_lon)
            (some slat) (some slon)).toReal⟩
        else none
    | _, _ => none

/-- The comparison key of `nearby_salons.sort(key=lambda x: x['distance'])`. -/
noncomputable def distLeB (a b : AnnotatedSalon) : Bool :=
  decide (a.distance ≤ b.distance)

/-- Lines 41–51: build the kept set, then sort it ascending by the
attached `distance` (Python `list.sort` is stable; modelled by
`List.mergeSort`, which is also stable). -/
noncomputable def nearby_salons (user_lat user_lon radius : ℝ)
    (salons : List Salon) : List AnnotatedSalon :=
  (nearbyPre user_lat user_lon radius salons).mergeSort distLeB

/-- Outcome of the `/nearby` endpoint: HTTP 400 or the 200 payload. -/
inductive NearbyResponse where
  | validationError
  | ok (salons : List AnnotatedSalon) (total_count : Nat) (search_radius : ℝ)

/-- `get_nearby_salons` (lines 27–60): read optional `latitude`,
`longitude` and `radius` (default 50) from the request; reject with a
validation error when `not user_lat or not user_lon` (truthiness, so
absent or zero); otherwise filter, sort and answer with the list, its
length and the radius used. -/
noncomputable def get_nearby_salons (user_lat user_lon : Option ℝ)
    (radius : Option ℝ) (salons : List Salon) : NearbyResponse :=
  let r := radius.getD 50
  match user_lat, user_lon with
  | some la, some lo =>
      if la = 0 ∨ lo = 0 then .validationError
      else .ok (nearby_salons la lo r salons)
        (nearby_salons la lo r salons).length r
  | _, _ => .validationError

/-! ### City/country filter (`get_salons_by_city`, lines 62–92) -/

/-- SQL `column ILIKE '%pat%'`: case-insensitive substring match,
modelled by lowercasing both sides and asking for a contiguous
sublist of characters. -/
def likeContains (pat hay : String) : Bool :=
  decide ((pat.toList.map Char.toLower) <:+: (hay.toList.map Char.toLower))

/-- Response of the `/by_city` endpoint: the enriched list, its length
and the echoed filter values. -/
structure CityResponse where
  salons : List SalonWithBarbers
  total_count : Nat
  filters_city : Option String
  filters_country : Option String

/-- `get_salons_by_city` (lines 62–92): start from approved salons;
`if city:` / `if country:` (truthiness: absent or empty string skips
the filter) narrow by case-insensitive substring match; then enrich
each surviving salon with its barbers' summaries. -/
def get_salons_by_city (city country : Option String)
    (salons : List Salon) (barbers : List Barber) : CityResponse :=
  let q0 := salons.filter fun s => s.is_approved
  let q1 : List Salon := match city with
    | some c => if c ≠ "" then q0.filter (fun s => likeContains c s.city) else q0
    | none => q0
  let q2 : List Salon := match country with
    | some c => if c ≠ "" then q1.filter (fun s => likeContains c s.country) else q1
    | none => q1
  let salon_list : List SalonWithBarbers := q2.map fun s =>
    ⟨s, (barbers.filter fun b => b.salon_id == s.id).map fun b =>
      ⟨b.id, b.name, b.specialty⟩⟩
  ⟨salon_list, salon_list.length, city, country⟩

/-! ### Full listing (`get_all_salons`, lines 94–114) -/

/-- Response of the `/all` endpoint. -/
structure AllResponse where
  salons : List SalonWithBarbers
  total_count : Nat

/-- `get_all_salons` (lines 94–114): every approved salon enriched with
its barbers' summaries. -/
def get_all_salons (salons : List Salon) (barbers : List Barber) :
    AllResponse :=
  let q := salons.filter fun s => s.is_approved
  let salon_list : List SalonWithBarbers := q.map fun s =>
    ⟨s, (barbers.filter fun b => b.salon_id == s.id).map fun b =>
      ⟨b.id, b.name, b.specialty⟩⟩
  ⟨salon_list, salon_list.length⟩

/-! ### Single-salon lookup (`get_salon_details`, lines 116–135) -/

/-- Outcome of the `/<salon_id>` endpoint: 404, 403 or the 200 payload. -/
inductive DetailsResponse where
  | notFound
  | forbidden
  | ok (salon : SalonWithBarbers)

/-- `get_salon_details` (lines 116–135): fetch by primary key (`.get`,
modelled as the first record with the requested id); 404 when absent,
403 when present but unapproved, otherwise the enriched view. -/
def get_salon_details (salons : List Salon) (barbers : List Barber)
    (salon_id : Nat) : DetailsResponse :=
  match salons.find? (fun s => s.id == salon_id) with
  | none => .notFound
  | some s =>
      if s.is_approved then
        .ok ⟨s, (barbers.filter fun b => b.salon_id == s.id).map fun b =>
          ⟨b.id, b.name, b.specialty⟩⟩
      else .forbidden

/-! ### Claim-side definitions (from the specification's wording) -/

/-- Claim side, for the location filter: an absent filter constrains
nothing; a given one requires a case-insensitive substring match. -/
def fieldMatch (filterStr : Option String) (field : String) : Bool :=
  match filterStr with
  | none => true
  | some c => likeContains c field

/-- Claim side: "keeps exactly the salons" that are approved and match
both given filters (logical AND). -/
def locationSpecFilter (city country : Option String)
    (salons : List Salon) : List Salon :=
  salons.filter fun s =>
    s.is_approved && fieldMatch city s.city && fieldMatch country s.country

/-! ### Arithmetic facts about the Haversine formula -/

/-- The Haversine intermediate rewritten through the half-angle and
angle-difference identities:
`a = (1 - (sin l1 sin l2 + cos l1 cos l2 cos dlon)) / 2`. -/
lemma haversineA_eq (lat1 lon1 lat2 lon2 : ℝ) :
    haversineA lat1 lon1 lat2 lon2 =
      (1 - (Real.sin (degToRad lat1) * Real.sin (degToRad lat2) +
        Real.cos (degToRad lat1) * Real.cos (degToRad lat2) *
          Real.cos (degToRad lon2 - degToRad lon1))) / 2 := by
  unfold haversineA
  rw [Real.sin_sq_eq_half_sub, Real.sin_sq_eq_half_sub,
    show 2 * ((degToRad lat2 - degToRad lat1) / 2)
      = degToRad lat2 - degToRad lat1 by ring,
    show 2 * ((degToRad lon2 - degToRad lon1) / 2)
      = degToRad lon2 - degToRad lon1 by ring,
    Real.cos_sub (degToRad lat2) (degToRad lat1)]
  ring

/-- For any real angles, the "spherical dot product"
`sin x · sin y + cos x · cos y · cos d` lies in `[-1, 1]`. -/
lemma sphericalDot_bounds (x y d : ℝ) :
    -1 ≤ Real.sin x * Real.sin y + Real.cos x * Real.cos y * Real.cos d ∧
      Real.sin x * Real.sin y + Real.cos x * Real.cos y * Real.cos d ≤ 1 := by
  have hx := Real.sin_sq_add_cos_sq x
  have hy := Real.sin_sq_add_cos_sq y
  have hd1 := Real.cos_le_one d
  have hd2 := Real.neg_one_le_cos d
  constructor
  · nlinarith [sq_nonneg (Real.sin x + Real.sin y),
      mul_nonneg (sq_nonneg (Real.cos x + Real.cos y)) (by linarith : (0:ℝ) ≤ 1 + Real.cos d),
      mul_nonneg (sq_nonneg (Real.cos x - Real.cos y)) (by linarith : (0:ℝ) ≤ 1 - Real.cos d)]
  · nlinarith [sq_nonneg (Real.sin x - Real.sin y),
      mul_nonneg (sq_nonneg (Real.cos x - Real.cos y)) (by linarith : (0:ℝ) ≤ 1 + Real.cos d),
      mul_nonneg (sq_nonneg (Real.cos x + Real.cos y)) (by linarith : (0:ℝ) ≤ 1 - Real.cos d)]

/-- The argument handed to `sqrt` is always in `[0, 1]` in exact real
arithmetic. -/
lemma haversineA_mem_unitInterval (lat1 lon1 lat2 lon2 : ℝ) :
    0 ≤ haversineA lat1 lon1 lat2 lon2 ∧ haversineA lat1 lon1 lat2 lon2 ≤ 1 := by
  rw [haversineA_eq]
  have h := sphericalDot_bounds (degToRad lat1) (degToRad lat2)
    (degToRad lon2 - degToRad lon1)
  constructor <;> linarith [h.1, h.2]

/-- The distance of a point to itself is zero (in exact arithmetic). -/
lemma haversineKm_self (lat lon : ℝ) : haversineKm lat lon lat lon = 0 := by
  unfold haversineKm haversineA
  simp [Real.arcsin_zero]

/-- The Haversine distance is non-negative. -/
lemma haversineKm_nonneg (lat1 lon1 lat2 lon2 : ℝ) :
    0 ≤ haversineKm lat1 lon1 lat2 lon2 := by
  unfold haversineKm
  have h : 0 ≤ Real.arcsin (Real.sqrt (haversineA lat1 lon1 lat2 lon2)) :=
    Real.arcsin_nonneg.mpr (Real.sqrt_nonneg _)
  nlinarith

/-- The Haversine intermediate is symmetric in its two points. -/
lemma haversineA_comm (lat1 lon1 lat2 lon2 : ℝ) :
    haversineA lat2 lon2 lat1 lon1 = haversineA lat1 lon1 lat2 lon2 := by
  rw [haversineA_eq, haversineA_eq,
    show degToRad lon1 - degToRad lon2 = -(degToRad lon2 - degToRad lon1) by ring,
    Real.cos_neg]
  ring

/-- The Haversine distance is symmetric in its two points. -/
lemma haversineKm_comm (lat1 lon1 lat2 lon2 : ℝ) :
    haversineKm lat2 lon2 lat1 lon1 = haversineKm lat1 lon1 lat2 lon2 := by
  unfold haversineKm
  rw [haversineA_comm]

/-- The code-side formula and the specification-side formula agree. -/
lemma haversineKm_eq_haversineSpec (lat1 lon1 lat2 lon2 : ℝ) :
    haversineKm lat1 lon1 lat2 lon2 = haversineSpec lat1 lon1 lat2 lon2 := rfl

/-! ### Basic facts about `calculate_distance` -/

/-- On four present, non-zero coordinates the sentinel branch is not
taken. -/
lemma calculate_distance_some (lat1 lon1 lat2 lon2 : ℝ)
    (h1 : lat1 ≠ 0) (h2 : lon1 ≠ 0) (h3 : lat2 ≠ 0) (h4 : lon2 ≠ 0) :
    calculate_distance (some lat1) (some lon1) (some lat2) (some lon2) =
      ((haversineKm lat1 lon1 lat2 lon2 : ℝ) : EReal) := by
  unfold calculate_distance
  simp [h1, h2, h3, h4]

/-- A missing or zero coordinate anywhere yields the infinite sentinel. -/
lemma calculate_distance_falsy (lat1 lon1 lat2 lon2 : Option ℝ)
    (h : lat1 = none ∨ lat1 = some 0 ∨ lon1 = none ∨ lon1 = some 0 ∨
      lat2 = none ∨ lat2 = some 0 ∨ lon2 = none ∨ lon2 = some 0) :
    calculate_distance lat1 lon1 lat2 lon2 = ⊤ := by
  unfold calculate_distance
  rcases lat1 with _ | a <;> rcases lon1 with _ | b <;>
    rcases lat2 with _ | c <;> rcases lon2 with _ | d <;> simp_all

/-- A finite radius never dominates the infinite sentinel. -/
lemma top_not_le_radius (r : ℝ) : ¬ ((⊤ : EReal) ≤ (r : EReal)) := by
  simp [top_le_iff]

/-- If the computed distance to a salon is below a finite radius, all
four coordinates involved are present and non-zero. -/
lemma coords_nonzero_of_distance_le (lat1 lon1 lat2 lon2 : Option ℝ)
    (r : ℝ) (h : calculate_distance lat1 lon1 lat2 lon2 ≤ (r : EReal)) :
    ∃ a b c d : ℝ, lat1 = some a ∧ lon1 = some b ∧ lat2 = some c ∧
      lon2 = some d ∧ a ≠ 0 ∧ b ≠ 0 ∧ c ≠ 0 ∧ d ≠ 0 := by
  rcases lat1 with _ | a
  · simp [calculate_distance, top_le_iff, EReal.coe_ne_top] at h
  rcases lon1 with _ | b
  · simp [calculate_distance, top_le_iff, EReal.coe_ne_top] at h
  rcases lat2 with _ | c
  · simp [calculate_distance, top_le_iff, EReal.coe_ne_top] at h
  rcases lon2 with _ | d
  · simp [calculate_distance, top_le_iff, EReal.coe_ne_top] at h
  refine ⟨a, b, c, d, rfl, rfl, rfl, rfl, ?_, ?_, ?_, ?_⟩ <;>
    · rintro rfl
      simp [calculate_distance, top_le_iff, EReal.coe_ne_top] at h

/-! ### Claims about the distance function -/

/-- C2, counterexample: at `(0°, 10°)`–`(20°, 30°)` none of the four
coordinates is missing, yet `calculate_distance` returns the infinite
sentinel instead of the Haversine value, because Python truthiness
(`not all([...])`) treats the present coordinate `0.0` like a missing
one. -/
theorem calculate_distance_zero_counterexample :
    (some (0:ℝ) ≠ (none : Option ℝ) ∧ some (10:ℝ) ≠ (none : Option ℝ) ∧
      some (20:ℝ) ≠ (none : Option ℝ) ∧ some (30:ℝ) ≠ (none : Option ℝ)) ∧
    calculate_distance (some 0) (some 10) (some 20) (some 30) = ⊤ ∧
    calculate_distance (some 0) (some 10) (some 20) (some 30) ≠
      ((haversineSpec 0 10 20 30 : ℝ) : EReal) := by
  have h : calculate_distance (some (0:ℝ)) (some 10) (some 20) (some 30) = ⊤ :=
    calculate_distance_falsy _ _ _ _ (Or.inr (Or.inl rfl))
  refine ⟨⟨by simp, by simp, by simp, by simp⟩, h, ?_⟩
  rw [h]
  exact (EReal.coe_ne_top _).symm

/-- C2, amended: `calculate_distance` returns the infinite sentinel when
some coordinate is missing *or zero* (Python falsiness), and on four
present non-zero coordinates it returns exactly the Haversine formula as
worded by the specification. -/
theorem calculate_distance_spec :
    (∀ lat1 lon1 lat2 lon2 : Option ℝ,
      (lat1 = none ∨ lat1 = some 0 ∨ lon1 = none ∨ lon1 = some 0 ∨
        lat2 = none ∨ lat2 = some 0 ∨ lon2 = none ∨ lon2 = some 0) →
      calculate_distance lat1 lon1 lat2 lon2 = ⊤) ∧
    (∀ a b c d : ℝ, a ≠ 0 → b ≠ 0 → c ≠ 0 → d ≠ 0 →
      calculate_distance (some a) (some b) (some c) (some d) =
        ((haversineSpec a b c d : ℝ) : EReal)) := by
  refine ⟨calculate_distance_falsy, ?_⟩
  intro a b c d h1 h2 h3 h4
  rw [calculate_distance_some a b c d h1 h2 h3 h4, haversineKm_eq_haversineSpec]

/-- Witness for `calculate_distance_spec` at concrete inputs. -/
theorem calculate_distance_spec_witness :
    ((30:ℝ) ≠ 0 ∧ (31:ℝ) ≠ 0 ∧ (35:ℝ) ≠ 0 ∧ (40:ℝ) ≠ 0) ∧
    calculate_distance (some 30) (some 31) (some 35) (some 40) =
      ((haversineSpec 30 31 35 40 : ℝ) : EReal) ∧
    calculate_distance none (some 31) (some 35) (some 40) = ⊤ :=
  ⟨⟨by norm_num, by norm_num, by norm_num, by norm_num⟩,
    calculate_distance_spec.2 30 31 35 40 (by norm_num) (by norm_num)
      (by norm_num) (by norm_num),
    calculate_distance_spec.1 none (some 31) (some 35) (some 40) (Or.inl rfl)⟩

/-- C6, counterexample: `A = (0°, 10°)` has both coordinates present
(a valid pair), yet `distance(A, A)` is the infinite sentinel, not `0`. -/
theorem calculate_distance_self_counterexample :
    calculate_distance (some 0) (some 10) (some 0) (some 10) = ⊤ ∧
    calculate_distance (some 0) (some 10) (some 0) (some 10) ≠ (0 : EReal) := by
  have h : calculate_distance (some (0:ℝ)) (some 10) (some 0) (some 10) = ⊤ :=
    calculate_distance_falsy _ _ _ _ (Or.inr (Or.inl rfl))
  exact ⟨h, by simp [h]⟩

/-- C6, amended: `calculate_distance` is symmetric for all inputs and
non-negative for all inputs, and `distance(A, A) = 0` holds whenever
`A`'s coordinates are present and non-zero (a present zero coordinate is
falsy in Python and produces the sentinel instead). -/
theorem calculate_distance_metric_properties :
    (∀ lat1 lon1 lat2 lon2 : Option ℝ,
      calculate_distance lat1 lon1 lat2 lon2 =
        calculate_distance lat2 lon2 lat1 lon1) ∧
    (∀ lat lon : ℝ, lat ≠ 0 → lon ≠ 0 →
      calculate_distance (some lat) (some lon) (some lat) (some lon) = 0) ∧
    (∀ lat1 lon1 lat2 lon2 : Option ℝ,
      0 ≤ calculate_distance lat1 lon1 lat2 lon2) := by
  refine ⟨?_, ?_, ?_⟩
  · intro lat1 lon1 lat2 lon2
    rcases lat1 with _ | a <;> rcases lon1 with _ | b <;>
      rcases lat2 with _ | c <;> rcases lon2 with _ | d
    all_goals simp only [calculate_distance]
    exact if_congr (by tauto) rfl (by rw [haversineKm_comm c d a b])
  · intro lat lon hlat hlon
    rw [calculate_distance_some lat lon lat lon hlat hlon hlat hlon,
      haversineKm_self, EReal.coe_zero]
  · intro lat1 lon1 lat2 lon2
    rcases lat1 with _ | a <;> rcases lon1 with _ | b <;>
      rcases lat2 with _ | c <;> rcases lon2 with _ | d
    all_goals simp only [calculate_distance]
    all_goals try exact le_top
    split
    · exact le_top
    · exact EReal.coe_nonneg.mpr (haversineKm_nonneg a b c d)

/-- Witness for `calculate_distance_metric_properties` at a concrete
point. -/
theorem calculate_distance_metric_properties_witness :
    ((30:ℝ) ≠ 0 ∧ (31:ℝ) ≠ 0) ∧
    calculate_distance (some 30) (some 31) (some 30) (some 31) = 0 :=
  ⟨⟨by norm_num, by norm_num⟩,
    calculate_distance_metric_properties.2.1 30 31 (by norm_num) (by norm_num)⟩

/-- C7: in exact real arithmetic the argument handed to `sqrt`, and the
resulting argument handed to `asin`, lie in `[0, 1]` for every input —
in particular for every valid degree input, antipodal points and poles
included — so neither `sqrt` nor `asin` can be called out of domain,
and the `asin` argument equals its own clamp to `[0, 1]` (the
floating-point overshoot a clamp would guard against cannot occur in
exact arithmetic). -/
theorem haversine_asin_argument_in_unit_interval :
    ∀ lat1 lon1 lat2 lon2 : ℝ,
      0 ≤ haversineA lat1 lon1 lat2 lon2 ∧
      haversineA lat1 lon1 lat2 lon2 ≤ 1 ∧
      0 ≤ Real.sqrt (haversineA lat1 lon1 lat2 lon2) ∧
      Real.sqrt (haversineA lat1 lon1 lat2 lon2) ≤ 1 ∧
      Real.sqrt (haversineA lat1 lon1 lat2 lon2) =
        max 0 (min 1 (Real.sqrt (haversineA lat1 lon1 lat2 lon2))) := by
  intro lat1 lon1 lat2 lon2
  obtain ⟨h0, h1⟩ := haversineA_mem_unitInterval lat1 lon1 lat2 lon2
  have hs0 : 0 ≤ Real.sqrt (haversineA lat1 lon1 lat2 lon2) :=
    Real.sqrt_nonneg _
  have hs1 : Real.sqrt (haversineA lat1 lon1 lat2 lon2) ≤ 1 := by
    have h := Real.sqrt_le_sqrt h1
    rwa [Real.sqrt_one] at h
  exact ⟨h0, h1, hs0, hs1, by rw [min_eq_right hs1, max_eq_right hs0]⟩

/-! ### Membership in the nearby result -/

/-- Characterization of membership in the pre-sort kept set. -/
lemma mem_nearbyPre_iff (user_lat user_lon radius : ℝ)
    (salons : List Salon) (a : AnnotatedSalon) :
    a ∈ nearbyPre user_lat user_lon radius salons ↔
      a.salon ∈ salons ∧ a.salon.is_approved = true ∧
      ∃ slat slon : ℝ,
        a.salon.latitude = some slat ∧ a.salon.longitude = some slon ∧
        ¬ (slat = 0 ∨ slon = 0) ∧
        calculate_distance (some user_lat) (some user_lon)
          (some slat) (some slon) ≤ (radius : EReal) ∧
        a.distance = round2 (calculate_distance (some user_lat)
          (some user_lon) (some slat) (some slon)).toReal := by
  unfold nearbyPre
  rw [List.mem_filterMap]
  constructor
  · rintro ⟨s, hs, hfs⟩
    rw [List.mem_filter] at hs
    obtain ⟨hmem, happ⟩ := hs
    split at hfs
    case _ slat slon heq1 heq2 =>
      by_cases hz : slat = 0 ∨ slon = 0
      · rw [if_pos hz] at hfs
        cases hfs
      rw [if_neg hz] at hfs
      by_cases hd : calculate_distance (some user_lat) (some user_lon)
          (some slat) (some slon) ≤ (radius : EReal)
      · rw [if_pos hd] at hfs
        cases hfs
        exact ⟨hmem, happ, slat, slon, heq1, heq2, hz, hd, rfl⟩
      · rw [if_neg hd] at hfs
        cases hfs
    case _ => cases hfs
  · rintro ⟨hmem, happ, slat, slon, heq1, heq2, hz, hd, hdist⟩
    refine ⟨a.salon, List.mem_filter.mpr ⟨hmem, happ⟩, ?_⟩
    rw [heq1, heq2]
    dsimp only
    rw [if_neg hz, if_pos hd, ← hdist]

/-- The sort key comparison is transitive. -/
lemma distLeB_trans (a b c : AnnotatedSalon) :
    distLeB a b → distLeB b c → distLeB a c := by
  simp only [distLeB, decide_eq_true_iff]
  exact le_trans

/-- The sort key comparison is total. -/
lemma distLeB_total (a b : AnnotatedSalon) : distLeB a b || distLeB b a := by
  simp only [distLeB, Bool.or_eq_true, decide_eq_true_iff]
  exact le_total a.distance b.distance

/-- Sorting does not change membership. -/
lemma mem_nearby_salons_iff (user_lat user_lon radius : ℝ)
    (salons : List Salon) (a : AnnotatedSalon) :
    a ∈ nearby_salons user_lat user_lon radius salons ↔
      a ∈ nearbyPre user_lat user_lon radius salons := by
  unfold nearby_salons
  exact List.mem_mergeSort

/-! ### Claims about the nearby search -/

/-- C1: the nearby result excludes every salon whose computed distance
to the user point exceeds the radius, and includes every approved salon
with both coordinates present whose computed distance is `<= radius`
(the computed distance of a salon with a present-but-zero coordinate is
the infinite sentinel, so such a salon is not owed inclusion). -/
theorem nearby_salons_radius_filter :
    ∀ (user_lat user_lon radius : ℝ) (salons : List Salon),
      (∀ a ∈ nearby_salons user_lat user_lon radius salons,
        calculate_distance (some user_lat) (some user_lon)
          a.salon.latitude a.salon.longitude ≤ (radius : EReal)) ∧
      (∀ s ∈ salons, s.is_approved = true → s.latitude ≠ none →
        s.longitude ≠ none →
        calculate_distance (some user_lat) (some user_lon)
          s.latitude s.longitude ≤ (radius : EReal) →
        ∃ a ∈ nearby_salons user_lat user_lon radius salons, a.salon = s) := by
  intro user_lat user_lon radius salons
  constructor
  · intro a ha
    rw [mem_nearby_salons_iff, mem_nearbyPre_iff] at ha
    obtain ⟨-, -, slat, slon, heq1, heq2, -, hd, -⟩ := ha
    rw [heq1, heq2]
    exact hd
  · intro s hs happ hlat hlon hd
    obtain ⟨ula, ulo, slat, slon, hu1, hu2, hs1, hs2, hz1, hz2, hz3, hz4⟩ :=
      coords_nonzero_of_distance_le _ _ _ _ _ hd
    rw [hs1, hs2] at hd
    refine ⟨⟨s, round2 (calculate_distance (some user_lat) (some user_lon)
      (some slat) (some slon)).toReal⟩, ?_, rfl⟩
    rw [mem_nearby_salons_iff, mem_nearbyPre_iff]
    exact ⟨hs, happ, slat, slon, hs1, hs2, by tauto, hd, rfl⟩

/-- A concrete approved salon used by the witnesses. -/
def salonA : Salon :=
  { id := 1, latitude := some 30, longitude := some 31,
    city := "Cairo", country := "Egypt", is_approved := true }

/-- Witness for `nearby_salons_radius_filter`: the salon at the user's
own (non-zero) location is at computed distance `0 ≤ 50` and is indeed
included. -/
theorem nearby_salons_radius_filter_witness :
    ∃ a ∈ nearby_salons 30 31 50 [salonA], a.salon = salonA := by
  have hd : calculate_distance (some (30:ℝ)) (some 31) (some 30) (some 31) ≤
      ((50:ℝ) : EReal) := by
    rw [calculate_distance_some 30 31 30 31 (by norm_num) (by norm_num)
      (by norm_num) (by norm_num), haversineKm_self]
    exact EReal.coe_le_coe_iff.mpr (by norm_num)
  exact (nearby_salons_radius_filter 30 31 50 [salonA]).2 salonA
    (List.mem_singleton.mpr rfl) rfl (by simp [salonA]) (by simp [salonA]) hd

/-- Rounding zero gives zero. -/
lemma round2_zero : round2 0 = 0 := by simp [round2]

/-- Concrete evaluation of the nearby pipeline on a one-salon database
with the user standing at the salon. -/
lemma nearby_salons_salonA :
    nearby_salons 30 31 50 [salonA] = [⟨salonA, 0⟩] := by
  have h30 : (30:ℝ) ≠ 0 := by norm_num
  have h31 : (31:ℝ) ≠ 0 := by norm_num
  have hd : calculate_distance (some (30:ℝ)) (some 31) (some 30) (some 31) =
      ((0:ℝ) : EReal) := by
    rw [calculate_distance_some 30 31 30 31 h30 h31 h30 h31, haversineKm_self]
  unfold nearby_salons nearbyPre
  rw [show List.filter (fun s => s.is_approved) [salonA] = [salonA] from rfl,
    List.filterMap_cons, List.filterMap_nil]
  simp only [salonA]
  rw [if_neg (by norm_num : ¬((30:ℝ) = 0 ∨ (31:ℝ) = 0)), hd,
    if_pos (EReal.coe_le_coe_iff.mpr (by norm_num : (0:ℝ) ≤ 50)),
    EReal.toReal_coe, round2_zero, List.mergeSort_singleton]

/-- C4: every salon in the nearby result is approved and has both
coordinates present. -/
theorem nearby_salons_approved_and_located :
    ∀ (user_lat user_lon radius : ℝ) (salons : List Salon),
      ∀ a ∈ nearby_salons user_lat user_lon radius salons,
        a.salon.is_approved = true ∧ a.salon.latitude ≠ none ∧
          a.salon.longitude ≠ none := by
  intro user_lat user_lon radius salons a ha
  rw [mem_nearby_salons_iff, mem_nearbyPre_iff] at ha
  obtain ⟨-, happ, slat, slon, heq1, heq2, -, -, -⟩ := ha
  exact ⟨happ, by rw [heq1]; simp, by rw [heq2]; simp⟩

/-- Witness for `nearby_salons_approved_and_located` on a concrete
result element. -/
theorem nearby_salons_approved_and_located_witness :
    (⟨salonA, 0⟩ : AnnotatedSalon) ∈ nearby_salons 30 31 50 [salonA] ∧
    (salonA.is_approved = true ∧ salonA.latitude ≠ none ∧
      salonA.longitude ≠ none) := by
  have hmem : (⟨salonA, 0⟩ : AnnotatedSalon) ∈ nearby_salons 30 31 50 [salonA] := by
    rw [nearby_salons_salonA]
    exact List.mem_singleton.mpr rfl
  exact ⟨hmem,
    nearby_salons_approved_and_located 30 31 50 [salonA] ⟨salonA, 0⟩ hmem⟩

/-- C3: the nearby result is sorted ascending by the attached `distance`
field, and the sort is stable: for every sort key, the subsequence of
result elements carrying that key equals the corresponding subsequence
of the pre-sort list, which is in the persistence layer's original
order. -/
theorem nearby_salons_sorted_stable :
    ∀ (user_lat user_lon radius : ℝ) (salons : List Salon),
      List.Sorted (fun a b : AnnotatedSalon => a.distance ≤ b.distance)
        (nearby_salons user_lat user_lon radius salons) ∧
      ∀ k : ℝ,
        (nearby_salons user_lat user_lon radius salons).filter
            (fun a => decide (a.distance = k)) =
          (nearbyPre user_lat user_lon radius salons).filter
            (fun a => decide (a.distance = k)) := by
  intro user_lat user_lon radius salons
  constructor
  · have h := List.sorted_mergeSort distLeB_trans distLeB_total
      (nearbyPre user_lat user_lon radius salons)
    unfold nearby_salons
    exact h.imp fun hab => by simpa [distLeB] using hab
  · intro k
    unfold nearby_salons
    generalize nearbyPre user_lat user_lon radius salons = pre
    have hmemk : ∀ a ∈ pre.filter (fun a => decide (a.distance = k)),
        a.distance = k := by
      intro a ha
      simpa using List.of_mem_filter ha
    have hpair : (pre.filter (fun a => decide (a.distance = k))).Pairwise
        (fun a b => distLeB a b = true) :=
      List.pairwise_of_forall_mem_list fun a ha b hb => by
        simp [distLeB, hmemk a ha, hmemk b hb]
    have hsub : List.Sublist (pre.filter (fun a => decide (a.distance = k)))
        (pre.mergeSort distLeB) :=
      List.sublist_mergeSort distLeB_trans distLeB_total hpair
        (List.filter_sublist pre)
    have hsub2 : List.Sublist (pre.filter (fun a => decide (a.distance = k)))
        ((pre.mergeSort distLeB).filter (fun a => decide (a.distance = k))) := by
      have h2 := hsub.filter (fun a => decide (a.distance = k))
      have h3 : (pre.filter (fun a => decide (a.distance = k))).filter
          (fun a => decide (a.distance = k)) =
          pre.filter (fun a => decide (a.distance = k)) :=
        List.filter_eq_self.mpr (by
          intro a ha
          exact decide_eq_true (hmemk a ha))
      rwa [h3] at h2
    have hperm : List.Perm
        ((pre.mergeSort distLeB).filter (fun a => decide (a.distance = k)))
        (pre.filter (fun a => decide (a.distance = k))) :=
      (List.mergeSort_perm pre distLeB).filter _
    exact (hsub2.eq_of_length hperm.length_eq.symm).symm

/-- C9: whenever the user latitude or longitude is absent — or zero,
which Python truthiness cannot distinguish from absent — the endpoint
answers with the validation error and produces no result set. -/
theorem get_nearby_salons_validation :
    ∀ (user_lat user_lon radius : Option ℝ) (salons : List Salon),
      (user_lat = none ∨ user_lat = some 0 ∨
        user_lon = none ∨ user_lon = some 0) →
      get_nearby_salons user_lat user_lon radius salons =
        NearbyResponse.validationError := by
  intro ulat ulon radius salons h
  rcases ulat with _ | la
  · rfl
  rcases ulon with _ | lo
  · rfl
  unfold get_nearby_salons
  dsimp only
  rcases h with h | h | h | h
  · simp at h
  · obtain rfl : la = 0 := Option.some.inj h
    rw [if_pos (Or.inl rfl)]
  · simp at h
  · obtain rfl : lo = 0 := Option.some.inj h
    rw [if_pos (Or.inr rfl)]

/-- Witness for `get_nearby_salons_validation` with an absent latitude. -/
theorem get_nearby_salons_validation_witness :
    ((none : Option ℝ) = none ∨ (none : Option ℝ) = some 0 ∨
      (some (31:ℝ)) = none ∨ (some (31:ℝ)) = some 0) ∧
    get_nearby_salons none (some 31) none [salonA] =
      NearbyResponse.validationError :=
  ⟨Or.inl rfl,
    get_nearby_salons_validation none (some 31) none [salonA] (Or.inl rfl)⟩

/-! ### Claims about lookup, location filter and full listing -/

/-- If the id is present (under unique ids) `find?` returns exactly that
record. -/
lemma find?_id_eq (salons : List Salon) (sid : Nat) (s : Salon)
    (hs : s ∈ salons) (hnd : (salons.map Salon.id).Nodup) (hid : s.id = sid) :
    salons.find? (fun t => t.id == sid) = some s := by
  rcases hq : salons.find? (fun t => t.id == sid) with _ | t
  · rw [List.find?_eq_none] at hq
    exact absurd (beq_iff_eq.mpr hid) (hq s hs)
  · have ht_mem := List.mem_of_find?_eq_some hq
    have ht_p := List.find?_some hq
    simp only [beq_iff_eq] at ht_p
    have heq : t = s := by
      apply List.inj_on_of_nodup_map hnd ht_mem hs
      rw [ht_p, hid]
    rw [hq, heq]

/-- C5: `get_salon_details` is a trichotomy — `notFound` when no record
has the requested id; `forbidden` (never `notFound`, never success) when
the record exists but is unapproved; and on an existing approved record
the enriched serialized view with the barbers' summaries. -/
theorem get_salon_details_trichotomy :
    ∀ (salons : List Salon) (barbers : List Barber) (sid : Nat),
      ((∀ s ∈ salons, s.id ≠ sid) →
        get_salon_details salons barbers sid = DetailsResponse.notFound) ∧
      (∀ s ∈ salons, (salons.map Salon.id).Nodup → s.id = sid →
        s.is_approved = false →
        get_salon_details salons barbers sid = DetailsResponse.forbidden) ∧
      (∀ s ∈ salons, (salons.map Salon.id).Nodup → s.id = sid →
        s.is_approved = true →
        get_salon_details salons barbers sid = DetailsResponse.ok
          ⟨s, (barbers.filter fun b => b.salon_id == s.id).map fun b =>
            ⟨b.id, b.name, b.specialty⟩⟩) := by
  intro salons barbers sid
  refine ⟨?_, ?_, ?_⟩
  · intro h
    have hnone : salons.find? (fun t => t.id == sid) = none :=
      List.find?_eq_none.mpr fun x hx => by simpa using h x hx
    unfold get_salon_details
    rw [hnone]
  · intro s hs hnd hid happ
    unfold get_salon_details
    rw [find?_id_eq salons sid s hs hnd hid]
    simp [happ]
  · intro s hs hnd hid happ
    unfold get_salon_details
    rw [find?_id_eq salons sid s hs hnd hid]
    simp [happ]

/-- A concrete unapproved salon used by the witness for the lookup. -/
def salonB : Salon :=
  { id := 2, latitude := none, longitude := none,
    city := "Giza", country := "Egypt", is_approved := false }

/-- Witness for `get_salon_details_trichotomy`: an existing unapproved
salon yields `forbidden`. -/
theorem get_salon_details_trichotomy_witness :
    (salonB ∈ [salonB] ∧ ([salonB].map Salon.id).Nodup ∧ salonB.id = 2 ∧
      salonB.is_approved = false) ∧
    get_salon_details [salonB] [] 2 = DetailsResponse.forbidden :=
  ⟨⟨List.mem_singleton.mpr rfl, by simp, rfl, rfl⟩,
    (get_salon_details_trichotomy [salonB] [] 2).2.1 salonB
      (List.mem_singleton.mpr rfl) (by simp) rfl rfl⟩

/-- C10: with both filters absent, the `/by_city` endpoint returns the
same enriched salon list, in the same order and with the same count, as
the `/all` endpoint; the responses differ only in the echoed `filters`
field. -/
theorem by_city_no_filters_eq_all :
    ∀ (salons : List Salon) (barbers : List Barber),
      (get_salons_by_city none none salons barbers).salons =
        (get_all_salons salons barbers).salons ∧
      (get_salons_by_city none none salons barbers).total_count =
        (get_all_salons salons barbers).total_count := by
  intro salons barbers
  exact ⟨rfl, rfl⟩

/-- C8: the `/by_city` result keeps exactly the approved salons whose
`city` (resp. `country`) contains the given filter string
case-insensitively as a substring, the two filters combining by logical
AND; an absent filter (or the empty string, which every string
contains) constrains nothing.  Concretely, "Cairo" matches "Cairo",
"New Cairo" and "CAIRO" but not "Giza". -/
theorem get_salons_by_city_keeps_matches :
    (∀ (city country : Option String) (salons : List Salon)
        (barbers : List Barber),
      ((get_salons_by_city city country salons barbers).salons.map
          fun e => e.salon) = locationSpecFilter city country salons) ∧
    likeContains "Cairo" "Cairo" = true ∧
    likeContains "Cairo" "New Cairo" = true ∧
    likeContains "Cairo" "CAIRO" = true ∧
    likeContains "Cairo" "Giza" = false := by
  refine ⟨?_, by decide, by decide, by decide, by decide⟩
  intro city country salons barbers
  unfold get_salons_by_city locationSpecFilter
  have hmap : ∀ (l : List Salon),
      ((l.map fun s => (⟨s, (barbers.filter fun b => b.salon_id == s.id).map
          fun b => ⟨b.id, b.name, b.specialty⟩⟩ : SalonWithBarbers)).map
        fun e => e.salon) = l := by
    intro l
    rw [List.map_map]
    exact List.map_id' l
  have hempty : ∀ (l : List Salon) (f : Salon → String),
      l.filter (fun s => likeContains "" (f s)) = l := by
    intro l f
    apply List.filter_eq_self.mpr
    intro a ha
    simp [likeContains]
  rcases city with _ | c <;> rcases country with _ | c2
  · dsimp only
    rw [hmap]
    exact (List.filter_congr fun s hs => by simp [fieldMatch]).symm.trans rfl
  · dsimp only
    rw [hmap]
    by_cases hc2 : c2 = ""
    · subst hc2
      rw [if_neg (show ¬(("" : String) ≠ "") by simp)]
      exact List.filter_congr fun s hs => by
        simp [fieldMatch, likeContains]
    · rw [if_pos hc2, List.filter_filter]
      exact List.filter_congr fun s hs => by
        simp [fieldMatch, Bool.and_comm, Bool.and_left_comm, Bool.and_assoc]
  · dsimp only
    rw [hmap]
    by_cases hc : c = ""
    · subst hc
      rw [if_neg (show ¬(("" : String) ≠ "") by simp)]
      exact List.filter_congr fun s hs => by
        simp [fieldMatch, likeContains]
    · rw [if_pos hc, List.filter_filter]
      exact List.filter_congr fun s hs => by
        simp [fieldMatch, Bool.and_comm, Bool.and_left_comm, Bool.and_assoc]
  · dsimp only
    by_cases hc : c = "" <;> by_cases hc2 : c2 = ""
    · subst hc; subst hc2
      rw [if_neg (show ¬(("" : String) ≠ "") by simp),
        if_neg (show ¬(("" : String) ≠ "") by simp), hmap]
      exact List.filter_congr fun s hs => by
        simp [fieldMatch, likeContains]
    · subst hc
      rw [if_neg (show ¬(("" : String) ≠ "") by simp), if_pos hc2, hmap,
        List.filter_filter]
      exact List.filter_congr fun s hs => by
        simp [fieldMatch, likeContains, Bool.and_comm, Bool.and_left_comm,
          Bool.and_assoc]
    · subst hc2
      rw [if_pos hc, if_neg (show ¬(("" : String) ≠ "") by simp), hmap,
        List.filter_filter]
      exact List.filter_congr fun s hs => by
        simp [fieldMatch, likeContains, Bool.and_comm, Bool.and_left_comm,
          Bool.and_assoc]
    · rw [if_pos hc, if_pos hc2, hmap, List.filter_filter, List.filter_filter]
      exact List.filter_congr fun s hs => by
        simp [fieldMatch, Bool.and_comm, Bool.and_left_comm, Bool.and_assoc]
